import Mathlib

/- Shallow embedding of the HealthCareAnalysis client data layer:
   src/FrontEnd/src/services/api.js (the canonical api module),
   src/unnamed/part_001 (a legacy copy of the api module carrying the
   userGrowth and insight-update logic of uploadFile), and
   src/unnamed/part_000 (the Upload page's handleFile handler).
   JavaScript numbers are modelled as rationals, Math.round as
   floor (x + 1/2), and absent object fields as Option values. -/

namespace HealthApp

/-- JavaScript Math.round: round half toward positive infinity. -/
def jsRound (q : ℚ) : ℤ := ⌊q + 1/2⌋

/-- Rounding to one decimal place, as Math.round(x * 10) / 10 in the source. -/
def oneDecimal (q : ℚ) : ℚ := (jsRound (q * 10) : ℚ) / 10

/-- JavaScript s.includes("Urgent"), implemented by counting separator splits. -/
def containsUrgent (s : String) : Bool := 2 ≤ (s.splitOn "Urgent").length

/-- Raw backend summary object; every field may be absent. -/
structure Summary where
  total_users : Option ℤ := none
  steps_avg_7d : Option ℚ := none
  heart_rate_avg_7d : Option ℚ := none
  sleep_avg_7d : Option ℚ := none
  water_avg_7d : Option ℚ := none
deriving DecidableEq

/-- One entry of the backend trends array. -/
structure TrendEntry where
  metric : String
  change_percent : ℚ
deriving DecidableEq

/-- One backend anomaly; reason is a free-text field that may be absent. -/
structure Anomaly where
  reason : Option String := none
deriving DecidableEq

/-- One entry of the backend timeseries array. -/
structure TSItem where
  metric : String
  day : String
  value : ℚ
deriving DecidableEq

/-- Raw backend payload of GET /data/id/summary, with destructuring defaults. -/
structure BackendData where
  summary : Summary := {}
  trends : List TrendEntry := []
  anomalies : List Anomaly := []
  timeseries : List TSItem := []
deriving DecidableEq

/-- A chart point as pushed into chartData (the dynamic metric key is dropped
    since it duplicates the value field). -/
structure Entry where
  date : String
  value : ℚ
deriving DecidableEq

/-- The metrics object built by transformBackendData. -/
structure Metrics where
  totalPatients : ℤ
  activePatients : ℤ
  avgAge : ℚ
  criticalCases : ℕ
  avgSteps : ℤ
  avgHeartRate : ℤ
  avgSleep : ℚ
  avgWater : ℤ
  stepsChange : ℚ
  heartRateChange : ℚ
  sleepChange : ℚ
  waterChange : ℚ
deriving DecidableEq

/-- The object returned by transformBackendData. -/
structure Transformed where
  metrics : Metrics
  trendData : List Entry
  heartRateData : List Entry
  sleepData : List Entry
  waterData : List Entry
  anomalies : List Anomaly
  trends : List TrendEntry
deriving DecidableEq

/-- Per-item scaling inside the timeseries loop: water is converted from
    milliliters to liters and rounded to one decimal, all else passes through. -/
def scaleValue (metric : String) (v : ℚ) : ℚ :=
  if metric = "water" then oneDecimal (v / 1000) else v

/-- The chart point pushed for one timeseries item. -/
def entryOf (it : TSItem) : Entry :=
  { date := it.day, value := scaleValue it.metric it.value }

/-- One iteration of the timeseries forEach: push the scaled entry onto the
    group of its metric. -/
def chartStep (cd : String → List Entry) (it : TSItem) : String → List Entry :=
  fun m => if m = it.metric then cd m ++ [entryOf it] else cd m

/-- The chartData dictionary built by the forEach, as a total function from
    metric name to its group (absent key = empty list). -/
def chartData (ts : List TSItem) : String → List Entry :=
  ts.foldl chartStep (fun _ => [])

/-- JavaScript summary.total_users or 1 (0 and absent are falsy). -/
def jsOrOne : Option ℤ → ℤ
  | none => 1
  | some v => if v = 0 then 1 else v

/-- getTrendChange: first trends entry matching the metric, else 0. -/
def getTrendChange (trends : List TrendEntry) (m : String) : ℚ :=
  match trends.find? (fun t => t.metric == m) with
  | some t => t.change_percent
  | none => 0

/-- transformBackendData from src/FrontEnd/src/services/api.js (identical in
    src/unnamed/part_001). -/
def transformBackendData (bd : BackendData) : Transformed :=
  let cd := chartData bd.timeseries
  let users := jsOrOne bd.summary.total_users
  { metrics :=
      { totalPatients := users
        activePatients := users
        avgAge := 35
        criticalCases :=
          (bd.anomalies.filter (fun a =>
            match a.reason with
            | some r => containsUrgent r
            | none => false)).length
        avgSteps := jsRound (bd.summary.steps_avg_7d.getD 0)
        avgHeartRate := jsRound (bd.summary.heart_rate_avg_7d.getD 0)
        avgSleep := oneDecimal (bd.summary.sleep_avg_7d.getD 0)
        avgWater := jsRound (bd.summary.water_avg_7d.getD 0)
        stepsChange := getTrendChange bd.trends "steps"
        heartRateChange := getTrendChange bd.trends "heart_rate"
        sleepChange := getTrendChange bd.trends "sleep"
        waterChange := getTrendChange bd.trends "water" }
    trendData :=
      if cd "steps" = [] then
        (bd.timeseries.filter (fun it => it.metric == "steps")).map
          (fun it => { date := it.day, value := it.value })
      else cd "steps"
    heartRateData := cd "heart_rate"
    sleepData := cd "sleep"
    waterData := cd "water"
    anomalies := bd.anomalies
    trends := bd.trends }

/-! Helper lemmas about the numeric model. -/

theorem jsRound_nonneg (q : ℚ) (h : 0 ≤ q) : 0 ≤ jsRound q := by
  unfold jsRound
  have : (0 : ℚ) ≤ q + 1/2 := by linarith
  exact Int.le_floor.mpr (by exact_mod_cast this)

theorem oneDecimal_nonneg (q : ℚ) (h : 0 ≤ q) : 0 ≤ oneDecimal q := by
  unfold oneDecimal
  have h10 : (0 : ℚ) ≤ q * 10 := by positivity
  have := jsRound_nonneg (q * 10) h10
  have hcast : (0 : ℚ) ≤ (jsRound (q * 10) : ℚ) := by exact_mod_cast this
  positivity

theorem jsRound_intCast (n : ℤ) : jsRound (n : ℚ) = n := by
  unfold jsRound
  rw [Int.floor_int_add]
  norm_num

theorem jsRound_den_one (q : ℚ) (h : q.den = 1) : (jsRound q : ℚ) = q := by
  have hq : (q.num : ℚ) = q := by
    have h2 := Rat.num_div_den q
    rw [h] at h2
    simpa using h2
  rw [← hq, jsRound_intCast]

theorem jsRound_abs_le (q : ℚ) : |(jsRound q : ℚ) - q| ≤ 1/2 := by
  unfold jsRound
  have h1 : ((⌊q + 1/2⌋ : ℤ) : ℚ) ≤ q + 1/2 := Int.floor_le _
  have h2 : q + 1/2 - 1 < ((⌊q + 1/2⌋ : ℤ) : ℚ) := Int.sub_one_lt_floor _
  rw [abs_le]
  constructor <;> linarith

theorem oneDecimal_abs_le (q : ℚ) : |oneDecimal q - q| ≤ 1/20 := by
  unfold oneDecimal
  have h := jsRound_abs_le (q * 10)
  have heq : (jsRound (q * 10) : ℚ) / 10 - q = ((jsRound (q * 10) : ℚ) - q * 10) / 10 := by
    ring
  rw [heq, abs_div, abs_of_pos (show (0:ℚ) < 10 by norm_num)]
  linarith

theorem jsOrOne_pos (o : Option ℤ) (h : ∀ v ∈ o, 0 ≤ v) : 1 ≤ jsOrOne o := by
  cases o with
  | none => exact le_refl 1
  | some v =>
    have hv := h v rfl
    unfold jsOrOne
    by_cases hz : v = 0
    · simp [hz]
    · simp [hz]
      omega

theorem getTrendChange_nonneg (trends : List TrendEntry) (m : String)
    (h : ∀ t ∈ trends, 0 ≤ t.change_percent) : 0 ≤ getTrendChange trends m := by
  unfold getTrendChange
  cases hfind : trends.find? (fun t => t.metric == m) with
  | none => exact le_refl 0
  | some t => exact h t (List.mem_of_find?_eq_some hfind)

/-! Claim C2: non-negativity of the transformed metrics. -/

/-- Payload with a negative total_users; negative numbers are truthy in
    JavaScript, so the or-1 default does not fire. -/
def negUsersPayload : BackendData := { summary := { total_users := some (-5) } }

/-- C2 counterexample: the claim says totalPatients is never less than 1
    regardless of summary.total_users, but a payload with total_users = -5
    produces totalPatients = -5. -/
theorem transform_totalPatients_cex :
    (transformBackendData negUsersPayload).metrics.totalPatients < 1 := by
  decide

/-- C2 (amended): when summary.total_users is non-negative where present and
    the summary averages and trend change percentages are non-negative, every
    numeric field of the transformed MetricSet is non-negative and
    totalPatients = activePatients is at least 1. -/
theorem transform_metrics_nonneg (bd : BackendData)
    (h0 : ∀ v ∈ bd.summary.total_users, 0 ≤ v)
    (h1 : 0 ≤ bd.summary.steps_avg_7d.getD 0)
    (h2 : 0 ≤ bd.summary.heart_rate_avg_7d.getD 0)
    (h3 : 0 ≤ bd.summary.sleep_avg_7d.getD 0)
    (h4 : 0 ≤ bd.summary.water_avg_7d.getD 0)
    (h5 : ∀ t ∈ bd.trends, 0 ≤ t.change_percent) :
    1 ≤ (transformBackendData bd).metrics.totalPatients ∧
    1 ≤ (transformBackendData bd).metrics.activePatients ∧
    0 ≤ (transformBackendData bd).metrics.avgAge ∧
    0 ≤ (transformBackendData bd).metrics.avgSteps ∧
    0 ≤ (transformBackendData bd).metrics.avgHeartRate ∧
    0 ≤ (transformBackendData bd).metrics.avgSleep ∧
    0 ≤ (transformBackendData bd).metrics.avgWater ∧
    0 ≤ (transformBackendData bd).metrics.stepsChange ∧
    0 ≤ (transformBackendData bd).metrics.heartRateChange ∧
    0 ≤ (transformBackendData bd).metrics.sleepChange ∧
    0 ≤ (transformBackendData bd).metrics.waterChange := by
  refine ⟨jsOrOne_pos _ h0, jsOrOne_pos _ h0, by norm_num [transformBackendData],
    jsRound_nonneg _ h1, jsRound_nonneg _ h2, oneDecimal_nonneg _ h3,
    jsRound_nonneg _ h4, getTrendChange_nonneg _ _ h5, getTrendChange_nonneg _ _ h5,
    getTrendChange_nonneg _ _ h5, getTrendChange_nonneg _ _ h5⟩

/-- Concrete well-formed payload used to witness the amended C2. -/
def benignPayload : BackendData :=
  { summary :=
      { total_users := some 3
        steps_avg_7d := some 8450
        heart_rate_avg_7d := some 72
        sleep_avg_7d := some (36/5)
        water_avg_7d := some 2200 }
    trends := [{ metric := "steps", change_percent := 12 },
               { metric := "water", change_percent := 3 }] }

/-- C2 amended witness at the benign payload. -/
theorem transform_metrics_nonneg_w :
    1 ≤ (transformBackendData benignPayload).metrics.totalPatients ∧
    1 ≤ (transformBackendData benignPayload).metrics.activePatients ∧
    0 ≤ (transformBackendData benignPayload).metrics.avgAge ∧
    0 ≤ (transformBackendData benignPayload).metrics.avgSteps ∧
    0 ≤ (transformBackendData benignPayload).metrics.avgHeartRate ∧
    0 ≤ (transformBackendData benignPayload).metrics.avgSleep ∧
    0 ≤ (transformBackendData benignPayload).metrics.avgWater ∧
    0 ≤ (transformBackendData benignPayload).metrics.stepsChange ∧
    0 ≤ (transformBackendData benignPayload).metrics.heartRateChange ∧
    0 ≤ (transformBackendData benignPayload).metrics.sleepChange ∧
    0 ≤ (transformBackendData benignPayload).metrics.waterChange :=
  transform_metrics_nonneg benignPayload
    (fun v hv => by
      simp only [benignPayload, Option.mem_def, Option.some.injEq] at hv
      omega)
    (by norm_num [benignPayload]) (by norm_num [benignPayload])
    (by norm_num [benignPayload]) (by norm_num [benignPayload])
    (by intro t ht; simp only [benignPayload, List.mem_cons, List.not_mem_nil, or_false] at ht
        rcases ht with h | h <;> rw [h] <;> norm_num)

/-! Claim C3: per-metric series grouping and water scaling. -/

theorem foldl_chartStep (m : String) : ∀ (ts : List TSItem) (cd0 : String → List Entry),
    (ts.foldl chartStep cd0) m =
      cd0 m ++ (ts.filter (fun it => it.metric == m)).map entryOf := by
  intro ts
  induction ts with
  | nil => intro cd0; simp
  | cons it rest ih =>
    intro cd0
    rw [List.foldl_cons, ih]
    by_cases hm : it.metric = m
    · have h1 : chartStep cd0 it m = cd0 m ++ [entryOf it] := by
        simp [chartStep, hm]
      rw [h1, List.filter_cons]
      simp [hm, List.append_assoc]
    · have hm2 : ¬ m = it.metric := fun h => hm h.symm
      have h1 : chartStep cd0 it m = cd0 m := by
        simp [chartStep, hm2]
      rw [h1, List.filter_cons]
      simp [hm]

theorem map_congr_mem {α β : Type} (f g : α → β) :
    ∀ (l : List α), (∀ x ∈ l, f x = g x) → l.map f = l.map g := by
  intro l
  induction l with
  | nil => intro _; rfl
  | cons a rest ih =>
    intro h
    rw [List.map_cons, List.map_cons, h a (List.mem_cons_self a rest),
      ih (fun x hx => h x (List.mem_cons_of_mem a hx))]

/-- C3: each group of the transformer's per-metric series holds, in input
    order, exactly the items of that metric, with water values converted to
    liters and rounded to one decimal place and every other metric's values
    passed through unchanged. -/
theorem transform_series_scaling (bd : BackendData) (m : String) :
    chartData bd.timeseries m =
      (bd.timeseries.filter (fun it => it.metric == m)).map
        (fun it =>
          { date := it.day
            value := if it.metric = "water" then oneDecimal (it.value / 1000)
                     else it.value }) ∧
    (transformBackendData bd).waterData =
      (bd.timeseries.filter (fun it => it.metric == "water")).map
        (fun it => { date := it.day, value := oneDecimal (it.value / 1000) }) ∧
    (transformBackendData bd).heartRateData =
      (bd.timeseries.filter (fun it => it.metric == "heart_rate")).map
        (fun it => { date := it.day, value := it.value }) ∧
    (transformBackendData bd).sleepData =
      (bd.timeseries.filter (fun it => it.metric == "sleep")).map
        (fun it => { date := it.day, value := it.value }) := by
  have key : ∀ (mm : String), chartData bd.timeseries mm =
      (bd.timeseries.filter (fun it => it.metric == mm)).map entryOf := by
    intro mm
    unfold chartData
    rw [foldl_chartStep]
    simp
  refine ⟨?_, ?_, ?_, ?_⟩
  · rw [key m]
    apply map_congr_mem
    intro it _
    simp [entryOf, scaleValue]
  · show chartData bd.timeseries "water" = _
    rw [key "water"]
    apply map_congr_mem
    intro it hit
    have hw : it.metric = "water" := by
      have := (List.mem_filter.mp hit).2
      simpa using this
    simp [entryOf, scaleValue, hw]
  · show chartData bd.timeseries "heart_rate" = _
    rw [key "heart_rate"]
    apply map_congr_mem
    intro it hit
    have hw : it.metric = "heart_rate" := by
      have := (List.mem_filter.mp hit).2
      simpa using this
    simp [entryOf, scaleValue, hw]
  · show chartData bd.timeseries "sleep" = _
    rw [key "sleep"]
    apply map_congr_mem
    intro it hit
    have hw : it.metric = "sleep" := by
      have := (List.mem_filter.mp hit).2
      simpa using this
    simp [entryOf, scaleValue, hw]

/-! Claim C6: rounding of the averaged metrics. -/

/-- Payload whose water 7-day average is 2.25, distinguishing integer rounding
    from one-decimal rounding. -/
def waterAvgPayload : BackendData := { summary := { water_avg_7d := some (9/4) } }

/-- C6 counterexample: the claim says avgWater is rounded to one decimal
    place, but the code rounds it to the nearest integer: on a raw average of
    2.25 the code yields 2 while one-decimal rounding yields 2.3. -/
theorem transform_avgWater_cex :
    ((transformBackendData waterAvgPayload).metrics.avgWater : ℚ) ≠
      oneDecimal (waterAvgPayload.summary.water_avg_7d.getD 0) := by
  have h0 : waterAvgPayload.summary.water_avg_7d.getD 0 = 9/4 := rfl
  have h1 : (transformBackendData waterAvgPayload).metrics.avgWater = 2 := by
    show jsRound (waterAvgPayload.summary.water_avg_7d.getD 0) = 2
    rw [h0]
    unfold jsRound
    rw [Int.floor_eq_iff]
    constructor <;> norm_num
  have h2 : oneDecimal (9/4 : ℚ) = 23/10 := by
    unfold oneDecimal jsRound
    have h3 : ⌊(9/4 : ℚ) * 10 + 1/2⌋ = 23 := by
      rw [Int.floor_eq_iff]
      constructor <;> norm_num
    rw [h3]
    norm_num
  rw [h0, h1, h2]
  norm_num

/-- C6 (amended): avgSteps, avgHeartRate and avgWater are rounded to the
    nearest integer and avgSleep to one decimal place; equivalently each is
    within 1/2 (respectively 1/20) of the raw backend average. -/
theorem transform_avg_rounding (bd : BackendData) :
    (transformBackendData bd).metrics.avgSteps = jsRound (bd.summary.steps_avg_7d.getD 0) ∧
    (transformBackendData bd).metrics.avgHeartRate = jsRound (bd.summary.heart_rate_avg_7d.getD 0) ∧
    (transformBackendData bd).metrics.avgSleep = oneDecimal (bd.summary.sleep_avg_7d.getD 0) ∧
    (transformBackendData bd).metrics.avgWater = jsRound (bd.summary.water_avg_7d.getD 0) ∧
    |((transformBackendData bd).metrics.avgSteps : ℚ) - bd.summary.steps_avg_7d.getD 0| ≤ 1/2 ∧
    |((transformBackendData bd).metrics.avgHeartRate : ℚ) - bd.summary.heart_rate_avg_7d.getD 0| ≤ 1/2 ∧
    |(transformBackendData bd).metrics.avgSleep - bd.summary.sleep_avg_7d.getD 0| ≤ 1/20 ∧
    |((transformBackendData bd).metrics.avgWater : ℚ) - bd.summary.water_avg_7d.getD 0| ≤ 1/2 :=
  ⟨rfl, rfl, rfl, rfl, jsRound_abs_le _, jsRound_abs_le _, oneDecimal_abs_le _, jsRound_abs_le _⟩

/-! Per-user persisted snapshot and the uploadFile userGrowth logic of
    src/unnamed/part_001. -/

/-- The JSON blob stored under healthApp_user_id / healthApp_guest. The shape
    is exactly what uploadFile persists: the spread of the transformed object
    plus uploadDate, fileName and data_id. There is no top-level totalPatients
    key; the total lives inside metrics. A missing key is none, and the empty
    object parsed from the default string has every field none. -/
structure UserBlob where
  metrics : Option Metrics := none
  trendData : Option (List Entry) := none
  heartRateData : Option (List Entry) := none
  sleepData : Option (List Entry) := none
  waterData : Option (List Entry) := none
  anomalies : Option (List Anomaly) := none
  trends : Option (List TrendEntry) := none
  totalPatients : Option ℤ := none
  data_id : Option String := none
  fileName : Option String := none
  uploadDate : Option String := none
deriving DecidableEq

/-- The blob uploadFile saves: spread of the transformed object plus the
    bookkeeping fields. The top-level totalPatients key stays absent. -/
def p1SavedBlob (t : Transformed) (fname dataId uploadDate : String) : UserBlob :=
  { metrics := some t.metrics
    trendData := some t.trendData
    heartRateData := some t.heartRateData
    sleepData := some t.sleepData
    waterData := some t.waterData
    anomalies := some t.anomalies
    trends := some t.trends
    totalPatients := none
    data_id := some dataId
    fileName := some fname
    uploadDate := some uploadDate }

/-- JavaScript previousData.totalPatients or 0. -/
def jsOrZero : Option ℤ → ℤ
  | none => 0
  | some v => v

/-- The userGrowth computation of uploadFile in src/unnamed/part_001: read
    previousData.totalPatients (top level), default 0; on 0 pick the fixed
    first-upload value, else the rounded percent change. -/
def userGrowthOf (previousData : UserBlob) (newTotal : ℤ) : ℚ :=
  let previousUserCount := jsOrZero previousData.totalPatients
  if previousUserCount = 0 then
    (if newTotal > 1 then 15.5 else 8.2)
  else
    (jsRound (((newTotal : ℚ) - (previousUserCount : ℚ)) / (previousUserCount : ℚ) * 100) : ℚ)

/-- Payload of a first upload reporting ten users. -/
def firstUploadPayload : BackendData := { summary := { total_users := some 10 } }

/-- C4 (code bug): the first upload persists totalPatients = 10 only inside
    the nested metrics object, so on the second upload the top-level read
    previousData.totalPatients is absent, previousUserCount stays 0, and a new
    total of 15 yields userGrowth = 15.5 instead of the claimed 50. -/
theorem upload_userGrowth_second_upload :
    (transformBackendData firstUploadPayload).metrics.totalPatients = 10 ∧
    (p1SavedBlob (transformBackendData firstUploadPayload) "health.csv" "id1" "2024-01-01").totalPatients = none ∧
    userGrowthOf (p1SavedBlob (transformBackendData firstUploadPayload) "health.csv" "id1" "2024-01-01") 15 = 15.5 ∧
    (15.5 : ℚ) ≠ 50 := by
  refine ⟨rfl, rfl, rfl, by norm_num⟩

/-! Insight synthesis after a successful upload (src/unnamed/part_001). -/

/-- One dashboard insight entry. -/
structure Insight where
  id : ℕ
  type : String
  title : String
  description : String
  timestamp : String
deriving DecidableEq

/-- The generic processed insight built after an upload. -/
def processedInsight (now dataPoints : ℕ) : Insight :=
  { id := now
    type := "success"
    title := "Health Data Processed"
    description := "Analyzed health data with " ++ toString dataPoints ++ " data points"
    timestamp := "Just now" }

/-- The anomaly-count-based assessment insight built after an upload. -/
def assessmentInsight (now anomalyCount : ℕ) : Insight :=
  { id := now + 1
    type := if 0 < anomalyCount then "warning" else "success"
    title := "Health Assessment"
    description :=
      if 0 < anomalyCount then toString anomalyCount ++ " anomalies detected"
      else "All health metrics within normal ranges"
    timestamp := "Just now" }

/-- The insight-list update of uploadFile: the two new insights prepended to
    slice(0, 2) of the prior list. -/
def updateInsights (now dataPoints anomalyCount : ℕ) (prior : List Insight) : List Insight :=
  [processedInsight now dataPoints, assessmentInsight now anomalyCount] ++ prior.take 2

/-- Three distinct prior insights. -/
def insightA : Insight := ⟨1, "success", "A", "a", "t1"⟩

def insightB : Insight := ⟨2, "warning", "B", "b", "t2"⟩

def insightC : Insight := ⟨3, "success", "C", "c", "t3"⟩

/-- C5 counterexample: with three prior insights present, the list after an
    upload is not the two new insights followed by the 3 most recent prior
    ones; the third prior insight is dropped. -/
theorem upload_insights_cex :
    updateInsights 100 5 0 [insightA, insightB, insightC] ≠
      [processedInsight 100 5, assessmentInsight 100 0] ++
        ([insightA, insightB, insightC].take 3) := by
  intro h
  have h4 : (updateInsights 100 5 0 [insightA, insightB, insightC]).length = 4 := rfl
  rw [h] at h4
  simp at h4

/-- C5 (amended): after every successful upload the insights list is exactly
    the two newly synthesized entries (the generic processed one and the
    anomaly-count-based success/warning one) prepended in front of at most the
    2 most recent prior insights, so it never exceeds 4 entries. -/
theorem upload_insights_shape (now dp ac : ℕ) (prior : List Insight) :
    updateInsights now dp ac prior =
      [processedInsight now dp, assessmentInsight now ac] ++ prior.take 2 ∧
    (updateInsights now dp ac prior).length ≤ 4 ∧
    (0 < ac → (assessmentInsight now ac).type = "warning") ∧
    (ac = 0 → (assessmentInsight now ac).type = "success") := by
  refine ⟨rfl, ?_, ?_, ?_⟩
  · have := List.length_take_le 2 prior
    simp only [updateInsights, List.length_append, List.length_cons, List.length_nil]
    omega
  · intro h
    simp [assessmentInsight, h]
  · intro h
    simp [assessmentInsight, h]

/-- C5 amended witness at a concrete upload with two anomalies and three
    prior insights. -/
theorem upload_insights_shape_w :
    updateInsights 7 3 2 [insightA, insightB, insightC] =
      [processedInsight 7 3, assessmentInsight 7 2] ++
        ([insightA, insightB, insightC].take 2) ∧
    (assessmentInsight 7 2).type = "warning" :=
  ⟨(upload_insights_shape 7 3 2 [insightA, insightB, insightC]).1,
   (upload_insights_shape 7 3 2 [insightA, insightB, insightC]).2.2.1 (by decide)⟩

/-! The Snapshot Store and loadUserData. -/

/-- The in-memory currentData record (the fields loadUserData touches, plus
    insights as a field it must leave alone). -/
structure CurrentData where
  metrics : Metrics
  trendData : List Entry
  heartRateData : List Entry
  sleepData : List Entry
  waterData : List Entry
  currentDataId : Option String
  insights : List Insight
deriving DecidableEq

/-- The local-storage key for a user id, or the guest key. -/
def userKey : Option String → String
  | some id => "healthApp_user_" ++ id
  | none => "healthApp_guest"

/-- loadUserData: parse the blob under the user's key (missing item parses to
    the empty object); when it has a metrics field, overwrite the Snapshot
    Store fields and return the blob, else return null and leave the store
    untouched. -/
def loadUserData (store : String → Option UserBlob) (st : CurrentData)
    (userId : Option String) : Option UserBlob × CurrentData :=
  let userData := (store (userKey userId)).getD {}
  match userData.metrics with
  | some m =>
    (some userData,
     { st with
        metrics := m
        trendData := userData.trendData.getD []
        heartRateData := userData.heartRateData.getD []
        sleepData := userData.sleepData.getD []
        waterData := userData.waterData.getD []
        currentDataId := userData.data_id })
  | none => (none, st)

/-- C10: loadUserData is a mutating read. When the persisted blob has a
    metrics field it overwrites metrics, trendData, heartRateData, sleepData,
    waterData and currentDataId with the stored values (absent series default
    to empty) and returns the stored snapshot; when the blob has no metrics
    field it returns null and leaves every field of the store unchanged. -/
theorem loadUserData_frame (store : String → Option UserBlob) (st : CurrentData)
    (uid : Option String) :
    (∀ m, ((store (userKey uid)).getD {}).metrics = some m →
      loadUserData store st uid =
        (some ((store (userKey uid)).getD {}),
         { st with
            metrics := m
            trendData := ((store (userKey uid)).getD {}).trendData.getD []
            heartRateData := ((store (userKey uid)).getD {}).heartRateData.getD []
            sleepData := ((store (userKey uid)).getD {}).sleepData.getD []
            waterData := ((store (userKey uid)).getD {}).waterData.getD []
            currentDataId := ((store (userKey uid)).getD {}).data_id })) ∧
    (((store (userKey uid)).getD {}).metrics = none →
      loadUserData store st uid = (none, st)) := by
  constructor
  · intro m hm
    simp [loadUserData, hm]
  · intro hm
    simp [loadUserData, hm]

/-- Concrete stored metrics for the loadUserData witness. -/
def metricsW : Metrics := ⟨5, 5, 35, 0, 8000, 70, 7, 2, 0, 0, 0, 0⟩

/-- Concrete stored blob for the loadUserData witness. -/
def blobW : UserBlob :=
  { metrics := some metricsW
    trendData := some [⟨"2024-01-01", 100⟩]
    data_id := some "id9" }

/-- Concrete storage containing only a guest blob. -/
def storeW : String → Option UserBlob :=
  fun k => if k = "healthApp_guest" then some blobW else none

/-- Concrete prior Snapshot Store state. -/
def stW : CurrentData :=
  { metrics := ⟨1, 1, 35, 0, 0, 0, 0, 0, 0, 0, 0, 0⟩
    trendData := []
    heartRateData := []
    sleepData := []
    waterData := []
    currentDataId := none
    insights := [insightA] }

/-- C10 witness: loading the guest blob installs its stored fields. -/
theorem loadUserData_frame_w :
    loadUserData storeW stW none =
      (some blobW,
       { stW with
          metrics := metricsW
          trendData := [⟨"2024-01-01", 100⟩]
          heartRateData := []
          sleepData := []
          waterData := []
          currentDataId := some "id9" }) :=
  (loadUserData_frame storeW stW none).1 metricsW rfl

/-! uploadFile of src/FrontEnd/src/services/api.js and the Upload page
    handler of src/unnamed/part_000, over an explicit network oracle. -/

/-- Modelled from the spec: the static mockMetrics record lives in
    mockData.js, which is not under src/; plausible dashboard defaults. Only
    its totalPatients field is overridden by the mock upload path. -/
def mockMetrics : Metrics := ⟨1247, 1180, 35, 0, 8420, 72, 36/5, 2, 0, 0, 0, 0⟩

/-- The metrics installed by mockUploadResponse: mockMetrics with
    totalPatients := Math.floor(Math.random() * 100) + 50. -/
def mockUploadMetrics (rand : ℚ) : Metrics :=
  { mockMetrics with totalPatients := ⌊rand * 100⌋ + 50 }

/-- The result object uploadFile returns to its caller. -/
structure UploadResult where
  success : Bool
  message : String
  fileName : String
  data_id : Option String := none
deriving DecidableEq

/-- mockUploadResponse: the synthesized success result, with the mock data id
    derived from Date.now(). -/
def mockUploadResponse (now : ℕ) (fname : String) : UploadResult :=
  { success := true
    message := "File processed with mock data (backend unavailable)"
    fileName := fname
    data_id := some ("mock_" ++ toString now) }

/-- Network and nondeterminism oracle for one uploadFile run: whether each
    fetch succeeds and what the backend answers, plus Date.now() and
    Math.random(). -/
structure Net where
  now : ℕ := 0
  rand : ℚ := 0
  healthReachable : Bool := true
  uploadOk : Bool := true
  uploadDataId : Option String := none
  summaryOk : Bool := true
  summaryData : BackendData := {}

/-- Observable outcome of one uploadFile run: the returned or thrown result,
    the HTTP requests issued in order, and the metrics the mock path installs
    into the Snapshot Store. -/
structure UploadOutcome where
  result : Except String UploadResult
  requests : List String
  mockMetricsInstalled : Option Metrics := none

/-- uploadFile of src/FrontEnd/src/services/api.js: probe /health; on network
    failure return the mock response; else POST /upload, require a data_id,
    fetch the summary, and wrap any thrown error as a file-upload failure. -/
def uploadFile (net : Net) (fname : String) : UploadOutcome :=
  if net.healthReachable = false then
    { result := Except.ok (mockUploadResponse net.now fname)
      requests := ["GET /health"]
      mockMetricsInstalled := some (mockUploadMetrics net.rand) }
  else if net.uploadOk = false then
    { result := Except.error "File upload failed: Upload failed"
      requests := ["GET /health", "POST /upload"] }
  else
    match net.uploadDataId with
    | none =>
      { result := Except.error "File upload failed: No data ID received from server"
        requests := ["GET /health", "POST /upload"] }
    | some dataId =>
      if dataId = "" then
        { result := Except.error "File upload failed: No data ID received from server"
          requests := ["GET /health", "POST /upload"] }
      else if net.summaryOk = false then
        { result := Except.error "File upload failed: Failed to fetch data"
          requests := ["GET /health", "POST /upload", "GET /data/" ++ dataId ++ "/summary"] }
      else
        { result := Except.ok
            { success := true
              message := "Health data processed successfully"
              fileName := fname
              data_id := some dataId }
          requests := ["GET /health", "POST /upload", "GET /data/" ++ dataId ++ "/summary"] }

/-- C1: when the initial GET /health probe fails, uploadFile returns normally
    (never throws) with success = true, the synthesized mock data id, and the
    randomized mock metrics installed. -/
theorem uploadFile_health_fallback (net : Net) (fname : String)
    (h : net.healthReachable = false) :
    (uploadFile net fname).result = Except.ok (mockUploadResponse net.now fname) ∧
    (mockUploadResponse net.now fname).success = true ∧
    (mockUploadResponse net.now fname).data_id = some ("mock_" ++ toString net.now) ∧
    (uploadFile net fname).mockMetricsInstalled = some (mockUploadMetrics net.rand) ∧
    (mockUploadMetrics net.rand).totalPatients = ⌊net.rand * 100⌋ + 50 := by
  refine ⟨?_, rfl, rfl, ?_, rfl⟩ <;> simp [uploadFile, h]

/-- Oracle for a run with the backend unreachable. -/
def netDown : Net := { now := 5, rand := 1/4, healthReachable := false }

/-- C1 witness: an upload against an unreachable backend. -/
theorem uploadFile_health_fallback_w :
    (uploadFile netDown "a.csv").result = Except.ok (mockUploadResponse netDown.now "a.csv") ∧
    (mockUploadResponse netDown.now "a.csv").success = true ∧
    (mockUploadResponse netDown.now "a.csv").data_id = some ("mock_" ++ toString netDown.now) ∧
    (uploadFile netDown "a.csv").mockMetricsInstalled = some (mockUploadMetrics netDown.rand) ∧
    (mockUploadMetrics netDown.rand).totalPatients = ⌊netDown.rand * 100⌋ + 50 :=
  uploadFile_health_fallback netDown "a.csv" rfl

/-- JavaScript file.name.endsWith(".csv"), via character-list suffix test. -/
def jsEndsWith (s pat : String) : Bool := pat.data.isSuffixOf s.data

/-- The result state handleFile leaves in uploadResult. -/
structure HandleResult where
  success : Bool
  message : String
deriving DecidableEq

/-- Observable outcome of one handleFile run. -/
structure HandleOutcome where
  result : HandleResult
  requests : List String

/-- handleFile of the Upload page (src/unnamed/part_000): reject non-.csv
    names before calling api.uploadFile; otherwise surface the upload result,
    turning a thrown error into a failure result. -/
def handleFile (net : Net) (fname : String) : HandleOutcome :=
  if jsEndsWith fname ".csv" = false then
    { result := { success := false, message := "Please upload a CSV file only." }
      requests := [] }
  else
    let u := uploadFile net fname
    match u.result with
    | Except.ok r => { result := { success := r.success, message := r.message }, requests := u.requests }
    | Except.error e => { result := { success := false, message := e }, requests := u.requests }

/-- C9: a file whose name does not end in .csv is rejected with a failure
    result before any network request is issued. -/
theorem handleFile_non_csv (net : Net) (fname : String)
    (h : jsEndsWith fname ".csv" = false) :
    (handleFile net fname).requests = [] ∧
    (handleFile net fname).result.success = false := by
  constructor <;> simp [handleFile, h]

/-- C9 witness: uploading data.txt issues no request and fails. -/
theorem handleFile_non_csv_w :
    (handleFile netDown "data.txt").requests = [] ∧
    (handleFile netDown "data.txt").result.success = false :=
  handleFile_non_csv netDown "data.txt" (by decide)

/-! The what-if simulator (identical in both copies of the api module). -/

/-- One forecast point; the predicted value is the field the simulator
    rewrites, day is carried by the object spread. -/
structure FItem where
  day : String
  predicted : ℚ
deriving DecidableEq

/-- The mockForecastData baselines the simulator adjusts. -/
structure ForecastData where
  steps : List FItem
  heartRate : List FItem
  sleep : List FItem
deriving DecidableEq

/-- One baseline risk entry (its level field is recomputed, so only type and
    percentage are observable inputs). -/
structure Risk where
  type : String
  percentage : ℚ
deriving DecidableEq

/-- One recomputed risk entry. -/
structure RiskOut where
  type : String
  percentage : ℚ
  level : String
deriving DecidableEq

/-- The object simulateForecast returns. -/
structure SimResult where
  steps : List FItem
  heartRate : List FItem
  sleep : List FItem
  risks : List RiskOut
deriving DecidableEq

/-- The per-risk newPercentage of simulateForecast. -/
def newPct (sleepIncrease extraSteps hydrationIncrease : ℚ) (risk : Risk) : ℚ :=
  if risk.type = "fatigue" then
    max 5 (risk.percentage - sleepIncrease * 15 - hydrationIncrease * 8)
  else if risk.type = "hydration" then
    max 5 (risk.percentage - hydrationIncrease * 25)
  else if risk.type = "sleep" then
    max 10 (risk.percentage - sleepIncrease * 20)
  else if risk.type = "stress" then
    max 8 (risk.percentage - sleepIncrease * 10 - (extraSteps / 1000) * 3)
  else risk.percentage

/-- The per-risk map of simulateForecast: rounded percentage and rebucketed
    level (the bucket test uses the unrounded percentage). -/
def adjustRisk (sleepIncrease extraSteps hydrationIncrease : ℚ) (risk : Risk) : RiskOut :=
  let np := newPct sleepIncrease extraSteps hydrationIncrease risk
  { type := risk.type
    percentage := (jsRound np : ℚ)
    level := if np ≤ 25 then "low" else if np ≤ 50 then "medium" else "high" }

/-- simulateForecast: adjust the three forecast series by the slider-derived
    multipliers and recompute the risks. -/
def simulateForecast (fd : ForecastData) (rd : List Risk)
    (sleepIncrease extraSteps hydrationIncrease : ℚ) : SimResult :=
  let stepMultiplier := 1 + extraSteps / 10000
  let sleepImpact := sleepIncrease * 0.5
  let hydrationImpact := hydrationIncrease * 0.3
  { steps := fd.steps.map (fun it =>
      { it with predicted := (jsRound (it.predicted * stepMultiplier + extraSteps * 0.15) : ℚ) })
    heartRate := fd.heartRate.map (fun it =>
      { it with predicted := ((max 55 (jsRound (it.predicted - sleepImpact - hydrationImpact)) : ℤ) : ℚ) })
    sleep := fd.sleep.map (fun it =>
      { it with predicted := min 9.5 (max 5 (it.predicted + sleepIncrease * 0.8)) })
    risks := rd.map (adjustRisk sleepIncrease extraSteps hydrationIncrease) }

/-- The category minimum each risk percentage is floored at. -/
def riskFloor (t : String) : ℚ :=
  if t = "fatigue" then 5 else if t = "hydration" then 5
  else if t = "sleep" then 10 else if t = "stress" then 8 else 0

theorem map_self_of {α : Type} (f : α → α) :
    ∀ (l : List α), (∀ x ∈ l, f x = x) → l.map f = l := by
  intro l
  induction l with
  | nil => intro _; rfl
  | cons a rest ih =>
    intro h
    rw [List.map_cons, h a (List.mem_cons_self a rest),
      ih (fun x hx => h x (List.mem_cons_of_mem a hx))]

theorem adjustRisk_identity (r : Risk) (hden : r.percentage.den = 1)
    (hfloor : riskFloor r.type ≤ r.percentage) :
    (adjustRisk 0 0 0 r).percentage = r.percentage := by
  simp only [adjustRisk, newPct]
  simp only [riskFloor] at hfloor
  split_ifs at hfloor ⊢ with h1 h2 h3 h4
  · have harg : r.percentage - 0 * 15 - 0 * 8 = r.percentage := by ring
    rw [harg, max_eq_right hfloor, jsRound_den_one _ hden]
  · have harg : r.percentage - 0 * 25 = r.percentage := by ring
    rw [harg, max_eq_right hfloor, jsRound_den_one _ hden]
  · have harg : r.percentage - 0 * 20 = r.percentage := by ring
    rw [harg, max_eq_right hfloor, jsRound_den_one _ hden]
  · have harg : r.percentage - 0 * 10 - (0 / 1000) * 3 = r.percentage := by ring
    rw [harg, max_eq_right hfloor, jsRound_den_one _ hden]
  · rw [jsRound_den_one _ hden]

/-- C7: with all three sliders at 0 the simulator returns every forecast
    point and every risk percentage unchanged from baseline, provided the
    baseline steps and heart-rate predictions are integers, the heart-rate
    baselines are at least the 55 floor, the sleep baselines lie in the
    [5, 9.5] clamp window, and each risk percentage is an integer no smaller
    than its category floor. -/
theorem simulateForecast_identity (fd : ForecastData) (rd : List Risk)
    (hs : ∀ it ∈ fd.steps, it.predicted.den = 1)
    (hh : ∀ it ∈ fd.heartRate, it.predicted.den = 1 ∧ 55 ≤ it.predicted)
    (hsl : ∀ it ∈ fd.sleep, 5 ≤ it.predicted ∧ it.predicted ≤ 9.5)
    (hr : ∀ r ∈ rd, r.percentage.den = 1 ∧ riskFloor r.type ≤ r.percentage) :
    (simulateForecast fd rd 0 0 0).steps = fd.steps ∧
    (simulateForecast fd rd 0 0 0).heartRate = fd.heartRate ∧
    (simulateForecast fd rd 0 0 0).sleep = fd.sleep ∧
    (simulateForecast fd rd 0 0 0).risks.map RiskOut.percentage = rd.map Risk.percentage := by
  refine ⟨?_, ?_, ?_, ?_⟩
  · simp only [simulateForecast]
    apply map_self_of
    intro it hit
    have hden := hs it hit
    have harg : it.predicted * (1 + (0:ℚ) / 10000) + 0 * 0.15 = it.predicted := by ring
    rw [harg, jsRound_den_one _ hden]
  · simp only [simulateForecast]
    apply map_self_of
    intro it hit
    obtain ⟨hden, h55⟩ := hh it hit
    have harg : it.predicted - (0:ℚ) * 0.5 - 0 * 0.3 = it.predicted := by ring
    rw [harg]
    have hcast : (jsRound it.predicted : ℚ) = it.predicted := jsRound_den_one _ hden
    have h55z : (55 : ℤ) ≤ jsRound it.predicted := by
      have h2 : (55:ℚ) ≤ (jsRound it.predicted : ℚ) := by rw [hcast]; exact h55
      exact_mod_cast h2
    rw [max_eq_right h55z, hcast]
  · simp only [simulateForecast]
    apply map_self_of
    intro it hit
    obtain ⟨h5, h95⟩ := hsl it hit
    have harg : it.predicted + (0:ℚ) * 0.8 = it.predicted := by ring
    rw [harg, max_eq_right h5, min_eq_right h95]
  · simp only [simulateForecast, List.map_map]
    apply map_congr_mem
    intro r hr2
    obtain ⟨hden, hfl⟩ := hr r hr2
    exact adjustRisk_identity r hden hfl

/-- Modelled from the spec: mockForecastData lives in mockData.js, which is
    not under src/; plausible baseline forecast series (integer step counts,
    resting heart rates above the 55 floor, sleep hours inside [5, 9.5]). -/
def mockForecastData : ForecastData :=
  { steps := [⟨"Mon", 8500⟩, ⟨"Tue", 8700⟩]
    heartRate := [⟨"Mon", 72⟩, ⟨"Tue", 71⟩]
    sleep := [⟨"Mon", 7⟩, ⟨"Tue", 15/2⟩] }

/-- Modelled from the spec: mockRiskData lives in mockData.js, which is not
    under src/; one entry per risk category, each above its floor. -/
def mockRiskData : List Risk :=
  [⟨"fatigue", 45⟩, ⟨"hydration", 30⟩, ⟨"sleep", 45⟩, ⟨"stress", 38⟩]

/-- C7 witness: the identity run on the modelled mock baselines. -/
theorem simulateForecast_identity_w :
    (simulateForecast mockForecastData mockRiskData 0 0 0).steps = mockForecastData.steps ∧
    (simulateForecast mockForecastData mockRiskData 0 0 0).heartRate = mockForecastData.heartRate ∧
    (simulateForecast mockForecastData mockRiskData 0 0 0).sleep = mockForecastData.sleep ∧
    (simulateForecast mockForecastData mockRiskData 0 0 0).risks.map RiskOut.percentage =
      mockRiskData.map Risk.percentage :=
  simulateForecast_identity mockForecastData mockRiskData
    (by
      intro it hit
      simp only [mockForecastData, List.mem_cons, List.not_mem_nil, or_false] at hit
      rcases hit with h | h <;> subst h <;> simp)
    (by
      intro it hit
      simp only [mockForecastData, List.mem_cons, List.not_mem_nil, or_false] at hit
      rcases hit with h | h <;> subst h <;> exact ⟨by simp, by norm_num⟩)
    (by
      intro it hit
      simp only [mockForecastData, List.mem_cons, List.not_mem_nil, or_false] at hit
      rcases hit with h | h <;> subst h <;> exact ⟨by norm_num, by norm_num⟩)
    (by
      intro r hrm
      simp only [mockRiskData, List.mem_cons, List.not_mem_nil, or_false] at hrm
      rcases hrm with h | h | h | h <;> subst h
      · refine ⟨by simp, ?_⟩
        show riskFloor "fatigue" ≤ (45:ℚ)
        unfold riskFloor
        rw [if_pos rfl]
        norm_num
      · refine ⟨by simp, ?_⟩
        have h1 : ("hydration":String) ≠ "fatigue" := by decide
        show riskFloor "hydration" ≤ (30:ℚ)
        unfold riskFloor
        rw [if_neg h1, if_pos rfl]
        norm_num
      · refine ⟨by simp, ?_⟩
        have h1 : ("sleep":String) ≠ "fatigue" := by decide
        have h2 : ("sleep":String) ≠ "hydration" := by decide
        show riskFloor "sleep" ≤ (45:ℚ)
        unfold riskFloor
        rw [if_neg h1, if_neg h2, if_pos rfl]
        norm_num
      · refine ⟨by simp, ?_⟩
        have h1 : ("stress":String) ≠ "fatigue" := by decide
        have h2 : ("stress":String) ≠ "hydration" := by decide
        have h3 : ("stress":String) ≠ "sleep" := by decide
        show riskFloor "stress" ≤ (38:ℚ)
        unfold riskFloor
        rw [if_neg h1, if_neg h2, if_neg h3, if_pos rfl]
        norm_num)

/-- Follows the spec's stated risk-recalculation contract: each category's
    percentage reduced from baseline by its fixed linear combination of the
    slider inputs, floored at the category minimum (5, 5, 10, 8). -/
def specRiskPct (sleepIncrease extraSteps hydrationIncrease : ℚ) (risk : Risk) : ℚ :=
  if risk.type = "fatigue" then
    max 5 (risk.percentage - (15 * sleepIncrease + 8 * hydrationIncrease))
  else if risk.type = "hydration" then
    max 5 (risk.percentage - 25 * hydrationIncrease)
  else if risk.type = "sleep" then
    max 10 (risk.percentage - 20 * sleepIncrease)
  else if risk.type = "stress" then
    max 8 (risk.percentage - (10 * sleepIncrease + 3 * (extraSteps / 1000)))
  else risk.percentage

/-- Follows the spec's level bucketing: low at most 25, medium at most 50,
    high above 50. -/
def specLevel (p : ℚ) : String :=
  if p ≤ 25 then "low" else if p ≤ 50 then "medium" else "high"

/-- C8: for all slider inputs the recomputed risk matches the spec's linear
    reductions with the category floors, the level is bucketed from the
    (unrounded) resulting percentage, and with sleepIncrease = 1 the sleep
    category is exactly baseline minus 20, floored at 10. -/
theorem adjustRisk_matches_spec (s e h : ℚ) (r : Risk) :
    (adjustRisk s e h r).percentage = (jsRound (specRiskPct s e h r) : ℚ) ∧
    (adjustRisk s e h r).level = specLevel (specRiskPct s e h r) ∧
    (r.type = "sleep" → specRiskPct 1 e h r = max 10 (r.percentage - 20)) := by
  have hnp : newPct s e h r = specRiskPct s e h r := by
    unfold newPct specRiskPct
    split_ifs with h1 h2 h3 h4
    · congr 1; ring
    · congr 1; ring
    · congr 1; ring
    · congr 1; ring
    · rfl
  refine ⟨?_, ?_, ?_⟩
  · simp only [adjustRisk, hnp]
  · simp only [adjustRisk, hnp, specLevel]
  · intro ht
    have hA : ¬ r.type = "fatigue" := by rw [ht]; decide
    have hB : ¬ r.type = "hydration" := by rw [ht]; decide
    unfold specRiskPct
    rw [if_neg hA, if_neg hB, if_pos ht]
    congr 1
    ring

/-- C8 witness: baseline 45 in the sleep category with sleepIncrease = 1. -/
theorem adjustRisk_matches_spec_w :
    (adjustRisk 1 0 0 ⟨"sleep", 45⟩).percentage =
      (jsRound (specRiskPct 1 0 0 ⟨"sleep", 45⟩) : ℚ) ∧
    specRiskPct 1 0 0 ⟨"sleep", 45⟩ = max 10 ((45:ℚ) - 20) :=
  ⟨(adjustRisk_matches_spec 1 0 0 ⟨"sleep", 45⟩).1,
   (adjustRisk_matches_spec 1 0 0 ⟨"sleep", 45⟩).2.2 rfl⟩

end HealthApp
